import Mathlib

/-!
Shallow embedding of the asset-registry chaincode
(src/jyellick/plob/chaincode/assetregistry.go).

Modelling choices:
- Go byte slices (`[]byte`) and Go strings are both modelled as Lean `String`
  (Go strings are arbitrary byte sequences; the code only compares these
  values for equality and concatenates them into messages, so the
  representation is faithful).
- The ledger is accessed through `GetState`/`PutState` on the single key
  `ac.key`; no handler ever touches another key, so the stored state is
  modelled as the single cell `Option Asset` holding the value at that key
  (absent = never written).  `proto.Marshal`/`proto.Unmarshal` form a
  deterministic, injective round-tripping codec and only this chaincode ever
  writes the key, so the cell stores the decoded `Asset` value directly; the
  "serialized asset" returned by a handler is modelled as the `Asset` value
  handed to `proto.Marshal` (the marshal error branches are unreachable for
  well-formed in-memory structs and are not modelled).
- The collaborator failures (`GetCreator`, `GetState`, `PutState` errors) are
  infrastructure faults of the stubbed ledger, outside the state machine
  being verified; in the model the creator identity and the current cell are
  given and writes succeed.
- Go's `History []*Owner` may hold nil pointers, which `ownsAsset` guards
  against, so history entries are modelled as `Option Owner`.
- Each Go handler returns `(bytes, error)` and performs at most one
  `PutState`; the model returns the pair (outcome, cell after the call),
  transcribing each `return nil, err` (which happens before any `PutState`)
  as an error outcome paired with the unchanged cell.
- Error kinds follow the spec's taxonomy (BadRequest / NotFound / Conflict /
  Unauthorized); the Go code carries only message strings, reproduced
  verbatim (\x27 is an apostrophe).
-/

namespace AssetRegistry

/-- Error taxonomy of the specification, section 7. -/
inductive ErrorKind where
  | badRequest
  | notFound
  | conflict
  | unauthorized
deriving DecidableEq, Repr

/-- A failure: its spec-taxonomy kind and the verbatim source message. -/
structure Err where
  kind : ErrorKind
  msg : String
deriving DecidableEq, Repr

/-- Go struct `Owner`: a single opaque identity, compared byte-for-byte. -/
structure Owner where
  id : String
deriving DecidableEq, Repr

/-- Go struct `Asset`: `LockedToChannel string` and `History []*Owner`
(entries may be nil pointers, hence `Option Owner`). -/
structure Asset where
  lockedToChannel : String
  history : List (Option Owner)
deriving DecidableEq, Repr

/-- Transcribes `parseArgs` (assetregistry.go lines 44-60): the Go `switch`
on `len(args)` with its `fallthrough` from 3 to 2.  Pure, no side effects. -/
def parseArgs (args : List String) :
    Except Err (String × String × Option String) :=
  match args with
  | [] => .error ⟨.badRequest, "Invoke called with no arguments"⟩
  | [_] => .error ⟨.badRequest, "Invoke called with only one argument"⟩
  | [a0, a1] => .ok (a0, a1, none)
  | [a0, a1, a2] => .ok (a0, a1, some a2)
  | _ => .error ⟨.badRequest, "Invoke called with too many arguments"⟩

/-- Transcribes `assetContext` (lines 62-69) minus the stub handle: the
invoker identity from `GetCreator`, the decoded asset from `GetState` on
`key` (`none` when absent), the operation name and the optional argument. -/
structure AssetContext where
  creator : String
  asset : Option Asset
  function : String
  key : String
  functionArg : Option String
deriving DecidableEq, Repr

/-- Transcribes `ownsAsset` (lines 133-152): nil asset, empty history and a
nil final owner all answer false; otherwise the last owner's id is compared
byte-for-byte with the invoker identity. -/
def ownsAsset (ac : AssetContext) : Bool :=
  match ac.asset with
  | none => false
  | some asset =>
    match asset.history.getLast? with
    | none => false
    | some none => false
    | some (some assetOwner) => assetOwner.id == ac.creator

/-- Transcribes `create` (lines 154-177). -/
def create (ac : AssetContext) : Except Err Asset × Option Asset :=
  if ac.functionArg.isSome then
    (.error ⟨.badRequest, "Too many arguments to \x27create\x27"⟩, ac.asset)
  else
    match ac.asset with
    | some _ =>
      (.error ⟨.conflict, "Cannot create an asset who\x27s key already exists"⟩,
        ac.asset)
    | none =>
      let asset : Asset :=
        { lockedToChannel := "", history := [some { id := ac.creator }] }
      (.ok asset, some asset)

/-- Transcribes `lock` (lines 179-214). -/
def lock (ac : AssetContext) : Except Err Asset × Option Asset :=
  match ac.functionArg with
  | none => (.error ⟨.badRequest, "Must pass toChannel argument"⟩, ac.asset)
  | some toChannel =>
    match ac.asset with
    | none =>
      (.error ⟨.notFound, "Cannot lock asset which does not exist"⟩, ac.asset)
    | some asset =>
      if asset.lockedToChannel ≠ "" then
        (.error ⟨.conflict,
          "Asset " ++ ac.key ++ " is already locked to " ++ asset.lockedToChannel⟩,
          ac.asset)
      else if !ownsAsset ac then
        (.error ⟨.unauthorized, "Not authorized to lock asset " ++ ac.key⟩,
          ac.asset)
      else
        let asset := { asset with lockedToChannel := toChannel }
        (.ok asset, some asset)

/-- Transcribes `show` (lines 216-256; `show` is a Lean keyword, hence the
name).  The cross-channel query is stubbed in the source: `fromChannel` is
bound and then discarded (`_ = fromChannel`), and `fromAsset` is
unconditionally the hypothetical single-owner history.  The persisted
history is `append(fromAsset.History, fromAsset.History[len-1])`, the
source's duplicate-append, transcribed with `getD (length - 1)` for the
in-bounds index `len-1`. -/
def showAsset (ac : AssetContext) : Except Err Asset × Option Asset :=
  match ac.functionArg with
  | none => (.error ⟨.badRequest, "Must pass fromChannel argument"⟩, ac.asset)
  | some _fromChannel =>
    if ac.asset.any (fun a => a.lockedToChannel == "") then
      (.error ⟨.conflict, "Cannot show an extant unlocked asset"⟩, ac.asset)
    else
      let fromAsset : Asset :=
        { lockedToChannel := "", history := [some { id := ac.creator }] }
      if ac.asset.any
          (fun a => decide (a.history.length ≥ fromAsset.history.length)) then
        (.error ⟨.conflict, "Asset has already been shown with newer history"⟩,
          ac.asset)
      else
        let toAsset : Asset :=
          { lockedToChannel := "",
            history := fromAsset.history ++
              [fromAsset.history.getD (fromAsset.history.length - 1) none] }
        (.ok toAsset, some toAsset)

/-- Transcribes `transfer` (lines 258-290). -/
def transfer (ac : AssetContext) : Except Err Asset × Option Asset :=
  match ac.functionArg with
  | none => (.error ⟨.badRequest, "Must pass target to transfer to"⟩, ac.asset)
  | some toID =>
    match ac.asset with
    | none =>
      (.error ⟨.notFound, "Cannot transfer an asset which does not exist"⟩,
        ac.asset)
    | some asset =>
      if asset.lockedToChannel ≠ "" then
        (.error ⟨.conflict,
          "Cannot transfer an asset which has been locked to another channel"⟩,
          ac.asset)
      else if !ownsAsset ac then
        (.error ⟨.unauthorized, "Not authorized to transfer asset " ++ ac.key⟩,
          ac.asset)
      else
        let asset := { asset with history := asset.history ++ [some { id := toID }] }
        (.ok asset, some asset)

/-- Transcribes `query` (lines 292-307).  The source's argument check is
transcribed exactly as written there: it errors when `functionArg` is nil
(the message reads "Too many args" but the condition fires when there is no
extra arg at all).  A successful query performs no `PutState`. -/
def query (ac : AssetContext) : Except Err Asset × Option Asset :=
  match ac.functionArg with
  | none => (.error ⟨.badRequest, "Too many args to \x27query\x27"⟩, ac.asset)
  | some _ =>
    match ac.asset with
    | none => (.error ⟨.notFound, "No asset found"⟩, ac.asset)
    | some asset => (.ok asset, ac.asset)

/-- Transcribes `execute` (lines 107-131): dispatch on the operation name. -/
def execute (ac : AssetContext) : Except Err Asset × Option Asset :=
  match ac.function with
  | "create" => create ac
  | "lock" => lock ac
  | "show" => showAsset ac
  | "transfer" => transfer ac
  | "query" => query ac
  | _ => (.error ⟨.badRequest, "Invalid invocation function"⟩, ac.asset)

/-- Transcribes `Invoke` / `newAssetContext` (lines 34-40, 71-105) at the
state-machine level: parse the arguments, build the context from the invoker
identity and the current cell (the stored value at the parsed key), and
dispatch.  Returns the outcome and the cell after the invocation; the code
never reads or writes any other key. -/
def invoke (args : List String) (creator : String) (cell : Option Asset) :
    Except Err Asset × Option Asset :=
  match parseArgs args with
  | .error e => (.error e, cell)
  | .ok (function, key, functionArg) =>
    execute
      { creator := creator, asset := cell, function := function, key := key,
        functionArg := functionArg }

/-- Claim C1 (code bug in `query`, assetregistry.go line 293): the nil-check
on the extra argument is inverted, so a two-argument `query` on an existing
asset fails with "Too many args to \x27query\x27" instead of returning the
serialized asset, while a three-argument `query` succeeds instead of failing
BadRequest.  This theorem evaluates the transcribed code at both inputs
(stored state is unchanged either way). -/
theorem query_arg_check_inverted :
    (invoke ["query", "assetA"] "B"
        (some { lockedToChannel := "channel2", history := [some { id := "A" }] })).1 =
      .error ⟨.badRequest, "Too many args to \x27query\x27"⟩ ∧
    (invoke ["query", "assetA"] "B"
        (some { lockedToChannel := "channel2", history := [some { id := "A" }] })).2 =
      some { lockedToChannel := "channel2", history := [some { id := "A" }] } ∧
    (invoke ["query", "assetA", "extra"] "B"
        (some { lockedToChannel := "channel2", history := [some { id := "A" }] })).1 =
      .ok { lockedToChannel := "channel2", history := [some { id := "A" }] } :=
  ⟨rfl, rfl, rfl⟩

/-- Claim C2: a `create` invocation with no extra argument fails with
Conflict (message "Cannot create an asset who\x27s key already exists") when
an asset already exists at the key, whatever the invoker identity, leaving
the cell unchanged; otherwise it persists and returns the asset with empty
`lockedToChannel` and history exactly `[Owner{id: invoker}]`. -/
theorem create_spec (ac : AssetContext) (h : ac.functionArg = none) :
    (∀ a, ac.asset = some a →
      create ac =
        (.error ⟨.conflict, "Cannot create an asset who\x27s key already exists"⟩,
          ac.asset)) ∧
    (ac.asset = none →
      create ac =
        (.ok { lockedToChannel := "", history := [some { id := ac.creator }] },
          some { lockedToChannel := "", history := [some { id := ac.creator }] })) := by
  constructor
  · intro a ha
    simp [create, h, ha]
  · intro ha
    simp [create, h, ha]

/-- Witness for C2 at concrete inputs: a create on an occupied key fails
Conflict, and a create on a fresh key writes the one-owner unlocked asset. -/
theorem create_spec_witness :
    create { creator := "B",
             asset := some { lockedToChannel := "", history := [some { id := "A" }] },
             function := "create", key := "k", functionArg := none } =
      (.error ⟨.conflict, "Cannot create an asset who\x27s key already exists"⟩,
        some { lockedToChannel := "", history := [some { id := "A" }] }) ∧
    create { creator := "A", asset := none, function := "create", key := "k",
             functionArg := none } =
      (.ok { lockedToChannel := "", history := [some { id := "A" }] },
        some { lockedToChannel := "", history := [some { id := "A" }] }) :=
  ⟨(create_spec _ rfl).1 _ rfl, (create_spec _ rfl).2 rfl⟩

/-- Claim C3: `parseArgs` fails BadRequest on 0, 1 or at least 4 arguments,
returns (args[0], args[1], absent) on 2 arguments and additionally args[2]
as the optional argument on 3; it is a pure function, so it has no side
effects. -/
theorem parseArgs_spec (args : List String) :
    (args = [] →
      parseArgs args = .error ⟨.badRequest, "Invoke called with no arguments"⟩) ∧
    (∀ a0, args = [a0] →
      parseArgs args = .error ⟨.badRequest, "Invoke called with only one argument"⟩) ∧
    (∀ a0 a1, args = [a0, a1] → parseArgs args = .ok (a0, a1, none)) ∧
    (∀ a0 a1 a2, args = [a0, a1, a2] → parseArgs args = .ok (a0, a1, some a2)) ∧
    (4 ≤ args.length →
      parseArgs args = .error ⟨.badRequest, "Invoke called with too many arguments"⟩) := by
  refine ⟨?_, ?_, ?_, ?_, ?_⟩
  · rintro rfl; rfl
  · rintro a0 rfl; rfl
  · rintro a0 a1 rfl; rfl
  · rintro a0 a1 a2 rfl; rfl
  · intro h
    match args, h with
    | a0 :: a1 :: a2 :: a3 :: rest, _ => rfl

/-- Witness for C3: one concrete argument list per arity class. -/
theorem parseArgs_spec_witness :
    parseArgs [] = .error ⟨.badRequest, "Invoke called with no arguments"⟩ ∧
    parseArgs ["create"] = .error ⟨.badRequest, "Invoke called with only one argument"⟩ ∧
    parseArgs ["create", "k"] = .ok ("create", "k", none) ∧
    parseArgs ["lock", "k", "ch"] = .ok ("lock", "k", some "ch") ∧
    parseArgs ["a", "b", "c", "d"] =
      .error ⟨.badRequest, "Invoke called with too many arguments"⟩ :=
  ⟨(parseArgs_spec []).1 rfl,
   (parseArgs_spec _).2.1 "create" rfl,
   (parseArgs_spec _).2.2.1 "create" "k" rfl,
   (parseArgs_spec _).2.2.2.1 "lock" "k" "ch" rfl,
   (parseArgs_spec _).2.2.2.2 (by decide)⟩

/-- Claim C4: a `show` invocation whose fromChannel argument is present, on a
key holding no asset, performs no remote query (the stub never consults the
argument, which is arbitrary here) and persists and returns the unlocked
asset whose history is the stubbed fetched history `[Owner{id: invoker}]`
plus a duplicate append of its last owner: exactly
`[Owner{id: invoker}, Owner{id: invoker}]`, length 2. -/
theorem show_fresh_key_spec (ac : AssetContext) (fromChannel : String)
    (harg : ac.functionArg = some fromChannel) (hasset : ac.asset = none) :
    showAsset ac =
      (.ok { lockedToChannel := "",
             history := [some { id := ac.creator }, some { id := ac.creator }] },
        some { lockedToChannel := "",
               history := [some { id := ac.creator }, some { id := ac.creator }] }) := by
  simp [showAsset, harg, hasset, List.getD]

/-- Witness for C4: a show as invoker B on an empty cell materializes the
double-entry history [B, B]. -/
theorem show_fresh_key_spec_witness :
    showAsset { creator := "B", asset := none, function := "show", key := "k",
                functionArg := some "channel1" } =
      (.ok { lockedToChannel := "",
             history := [some { id := "B" }, some { id := "B" }] },
        some { lockedToChannel := "",
               history := [some { id := "B" }, some { id := "B" }] }) :=
  show_fresh_key_spec _ "channel1" rfl rfl

/-- Claim C10: the value of the fromChannel argument never influences a
`show` invocation: two invocations agreeing on invoker, key and stored cell
but carrying different fromChannel values produce identical outcomes,
identical returned assets and identical stored state. -/
theorem show_ignores_fromChannel (key fromChannel1 fromChannel2 creator : String)
    (cell : Option Asset) :
    invoke ["show", key, fromChannel1] creator cell =
      invoke ["show", key, fromChannel2] creator cell := rfl

/-- Witness for C10 at concrete differing fromChannel values. -/
theorem show_ignores_fromChannel_witness :
    invoke ["show", "k", "channelX"] "A"
        (some { lockedToChannel := "ch2", history := [some { id := "A" }] }) =
      invoke ["show", "k", "channelY"] "A"
        (some { lockedToChannel := "ch2", history := [some { id := "A" }] }) :=
  show_ignores_fromChannel "k" "channelX" "channelY" "A" _

/-- Characterization of the source's ownership predicate: given the asset at
the key, the invoker owns it exactly when the final history entry is a
non-nil owner whose id byte-equals the invoker identity. -/
lemma ownsAsset_iff (ac : AssetContext) (a : Asset) (h : ac.asset = some a) :
    ownsAsset ac = true ↔ a.history.getLast? = some (some { id := ac.creator }) := by
  unfold ownsAsset
  rw [h]
  match hl : a.history.getLast? with
  | none => simp [hl]
  | some none => simp [hl]
  | some (some o) =>
    cases o with
    | mk i => simp [hl, Owner.mk.injEq]

/-- Claim C5: a `show` invocation with the fromChannel argument present, on a
key that already holds an asset, fails Conflict when that asset is unlocked;
when it is locked and its history is non-empty (length at least the stub's
fetched length 1) it also fails Conflict; consequently a success is possible
only when the existing asset is locked and has empty history.  Failures
leave the cell unchanged. -/
theorem show_existing_key_spec (ac : AssetContext) (fromChannel : String) (a : Asset)
    (harg : ac.functionArg = some fromChannel) (hasset : ac.asset = some a) :
    (a.lockedToChannel = "" →
      showAsset ac =
        (.error ⟨.conflict, "Cannot show an extant unlocked asset"⟩, ac.asset)) ∧
    (a.lockedToChannel ≠ "" → a.history ≠ [] →
      showAsset ac =
        (.error ⟨.conflict, "Asset has already been shown with newer history"⟩,
          ac.asset)) ∧
    (∀ r st, showAsset ac = (.ok r, st) →
      a.lockedToChannel ≠ "" ∧ a.history = []) := by
  refine ⟨?_, ?_, ?_⟩
  · intro hunlocked
    simp [showAsset, harg, hasset, hunlocked]
  · intro hlocked hne
    have hlen : 1 ≤ a.history.length := List.length_pos.mpr hne
    simp [showAsset, harg, hasset, hlocked, hlen]
  · intro r st hok
    by_cases hunlocked : a.lockedToChannel = ""
    · simp [showAsset, harg, hasset, hunlocked] at hok
    · by_cases hne : a.history = []
      · exact ⟨hunlocked, hne⟩
      · have hlen : 1 ≤ a.history.length := List.length_pos.mpr hne
        simp [showAsset, harg, hasset, hunlocked, hlen] at hok

/-- Witness for C5: an unlocked occupied key and a locked occupied key with
one owner both make show fail Conflict. -/
theorem show_existing_key_spec_witness :
    showAsset { creator := "B",
                asset := some { lockedToChannel := "", history := [some { id := "A" }] },
                function := "show", key := "k", functionArg := some "ch1" } =
      (.error ⟨.conflict, "Cannot show an extant unlocked asset"⟩,
        some { lockedToChannel := "", history := [some { id := "A" }] }) ∧
    showAsset { creator := "B",
                asset := some { lockedToChannel := "ch2", history := [some { id := "A" }] },
                function := "show", key := "k", functionArg := some "ch1" } =
      (.error ⟨.conflict, "Asset has already been shown with newer history"⟩,
        some { lockedToChannel := "ch2", history := [some { id := "A" }] }) :=
  ⟨(show_existing_key_spec _ "ch1" _ rfl rfl).1 rfl,
   (show_existing_key_spec _ "ch1" _ rfl rfl).2.1 (by decide) (by decide)⟩

/-- Claim C6: `lock` fails BadRequest without the toChannel argument,
NotFound when no asset exists, Conflict when the asset is already locked,
and Unauthorized when the invoker identity is not the final history entry's
owner id; otherwise it stores and returns the asset with `lockedToChannel`
set to the given (unvalidated, arbitrary) value and the history untouched.
Failures leave the cell unchanged. -/
theorem lock_spec (ac : AssetContext) :
    (ac.functionArg = none →
      lock ac = (.error ⟨.badRequest, "Must pass toChannel argument"⟩, ac.asset)) ∧
    (∀ toChannel, ac.functionArg = some toChannel → ac.asset = none →
      lock ac =
        (.error ⟨.notFound, "Cannot lock asset which does not exist"⟩, ac.asset)) ∧
    (∀ toChannel a, ac.functionArg = some toChannel → ac.asset = some a →
      a.lockedToChannel ≠ "" →
      lock ac =
        (.error ⟨.conflict,
          "Asset " ++ ac.key ++ " is already locked to " ++ a.lockedToChannel⟩,
          ac.asset)) ∧
    (∀ toChannel a, ac.functionArg = some toChannel → ac.asset = some a →
      a.lockedToChannel = "" →
      a.history.getLast? ≠ some (some { id := ac.creator }) →
      lock ac =
        (.error ⟨.unauthorized, "Not authorized to lock asset " ++ ac.key⟩,
          ac.asset)) ∧
    (∀ toChannel a, ac.functionArg = some toChannel → ac.asset = some a →
      a.lockedToChannel = "" →
      a.history.getLast? = some (some { id := ac.creator }) →
      lock ac =
        (.ok { a with lockedToChannel := toChannel },
          some { a with lockedToChannel := toChannel }) ∧
      ({ a with lockedToChannel := toChannel } : Asset).history = a.history) := by
  refine ⟨?_, ?_, ?_, ?_, ?_⟩
  · intro h
    simp [lock, h]
  · intro toChannel harg hasset
    simp [lock, harg, hasset]
  · intro toChannel a harg hasset hlocked
    simp [lock, harg, hasset, hlocked]
  · intro toChannel a harg hasset hunlocked hnotowner
    have howns : ownsAsset ac = false := by
      rw [← Bool.not_eq_true]
      rw [ownsAsset_iff ac a hasset]
      exact hnotowner
    simp [lock, harg, hasset, hunlocked, howns]
  · intro toChannel a harg hasset hunlocked howner
    have howns : ownsAsset ac = true := (ownsAsset_iff ac a hasset).mpr howner
    refine ⟨?_, rfl⟩
    simp [lock, harg, hasset, hunlocked, howns]

/-- Witness for C6: invoker A owns the single-entry history, so its lock to
channel2 succeeds and only flips the lock field; invoker C is not the owner
and fails Unauthorized. -/
theorem lock_spec_witness :
    lock { creator := "A",
           asset := some { lockedToChannel := "", history := [some { id := "A" }] },
           function := "lock", key := "k", functionArg := some "channel2" } =
      (.ok { lockedToChannel := "channel2", history := [some { id := "A" }] },
        some { lockedToChannel := "channel2", history := [some { id := "A" }] }) ∧
    lock { creator := "C",
           asset := some { lockedToChannel := "", history := [some { id := "A" }] },
           function := "lock", key := "k", functionArg := some "channel2" } =
      (.error ⟨.unauthorized, "Not authorized to lock asset k"⟩,
        some { lockedToChannel := "", history := [some { id := "A" }] }) :=
  ⟨((lock_spec _).2.2.2.2 "channel2" _ rfl rfl rfl (by decide)).1,
   (lock_spec _).2.2.2.1 "channel2" _ rfl rfl rfl (by decide)⟩

/-- Claim C8: `transfer` with a target argument on an existing unlocked
asset fails Unauthorized when the final history entry is missing, nil, or an
owner id differing from the invoker (leaving the cell unchanged); when the
invoker is the current owner it stores and returns the asset whose history
is the prior history with `Owner{id: toOwnerId}` appended, the prior history
remaining an unchanged prefix. -/
theorem transfer_spec (ac : AssetContext) (toID : String) (a : Asset)
    (harg : ac.functionArg = some toID) (hasset : ac.asset = some a)
    (hunlocked : a.lockedToChannel = "") :
    (a.history.getLast? ≠ some (some { id := ac.creator }) →
      transfer ac =
        (.error ⟨.unauthorized, "Not authorized to transfer asset " ++ ac.key⟩,
          ac.asset)) ∧
    (a.history.getLast? = some (some { id := ac.creator }) →
      transfer ac =
        (.ok { a with history := a.history ++ [some { id := toID }] },
          some { a with history := a.history ++ [some { id := toID }] }) ∧
      a.history <+: a.history ++ [some { id := toID }]) := by
  constructor
  · intro hnotowner
    have howns : ownsAsset ac = false := by
      rw [← Bool.not_eq_true]
      rw [ownsAsset_iff ac a hasset]
      exact hnotowner
    simp [transfer, harg, hasset, hunlocked, howns]
  · intro howner
    have howns : ownsAsset ac = true := (ownsAsset_iff ac a hasset).mpr howner
    refine ⟨?_, ⟨[some { id := toID }], rfl⟩⟩
    simp [transfer, harg, hasset, hunlocked, howns]

/-- Witness for C8: non-owner C fails Unauthorized; owner A appends B. -/
theorem transfer_spec_witness :
    transfer { creator := "C",
               asset := some { lockedToChannel := "", history := [some { id := "A" }] },
               function := "transfer", key := "k", functionArg := some "B" } =
      (.error ⟨.unauthorized, "Not authorized to transfer asset k"⟩,
        some { lockedToChannel := "", history := [some { id := "A" }] }) ∧
    transfer { creator := "A",
               asset := some { lockedToChannel := "", history := [some { id := "A" }] },
               function := "transfer", key := "k", functionArg := some "B" } =
      (.ok { lockedToChannel := "", history := [some { id := "A" }, some { id := "B" }] },
        some { lockedToChannel := "", history := [some { id := "A" }, some { id := "B" }] }) :=
  ⟨(transfer_spec _ "B" _ rfl rfl rfl).1 (by decide),
   ((transfer_spec _ "B" _ rfl rfl rfl).2 (by decide)).1⟩

lemma create_fail_state (ac : AssetContext) (e : Err)
    (h : (create ac).1 = .error e) : (create ac).2 = ac.asset := by
  cases harg : ac.functionArg <;> cases hasset : ac.asset <;>
    simp_all [create]

lemma lock_fail_state (ac : AssetContext) (e : Err)
    (h : (lock ac).1 = .error e) : (lock ac).2 = ac.asset := by
  cases harg : ac.functionArg <;> cases hasset : ac.asset <;>
    simp_all [lock] <;> split_ifs <;> simp_all

lemma show_fail_state (ac : AssetContext) (e : Err)
    (h : (showAsset ac).1 = .error e) : (showAsset ac).2 = ac.asset := by
  cases harg : ac.functionArg <;> cases hasset : ac.asset <;>
    simp_all [showAsset] <;> split_ifs <;> simp_all

lemma transfer_fail_state (ac : AssetContext) (e : Err)
    (h : (transfer ac).1 = .error e) : (transfer ac).2 = ac.asset := by
  cases harg : ac.functionArg <;> cases hasset : ac.asset <;>
    simp_all [transfer] <;> split_ifs <;> simp_all

/-- A `query` never writes: its resulting cell is the incoming one in every
branch, success included. -/
lemma query_state (ac : AssetContext) : (query ac).2 = ac.asset := by
  unfold query
  split
  · rfl
  · split <;> rfl

lemma execute_fail_state (ac : AssetContext) (e : Err)
    (h : (execute ac).1 = .error e) : (execute ac).2 = ac.asset := by
  unfold execute at h ⊢
  split at h
  · exact create_fail_state ac e h
  · exact lock_fail_state ac e h
  · exact show_fail_state ac e h
  · exact transfer_fail_state ac e h
  · exact query_state ac
  · rfl

/-- Claim C9: whatever the operation and arguments, a failing invocation
leaves the stored state at the asset key exactly as it was: every error
return in every handler happens before that handler's single write. -/
theorem failure_preserves_state (args : List String) (creator : String)
    (cell : Option Asset) (e : Err)
    (h : (invoke args creator cell).1 = .error e) :
    (invoke args creator cell).2 = cell := by
  unfold invoke at h ⊢
  cases hp : parseArgs args with
  | error e2 => rfl
  | ok t =>
    obtain ⟨f, k, arg⟩ := t
    rw [hp] at h
    exact execute_fail_state _ _ h

/-- Witness for C9: a three-argument create fails BadRequest and the empty
cell stays empty; an unauthorized lock fails and the asset stays unlocked. -/
theorem failure_preserves_state_witness :
    (invoke ["create", "k", "extra"] "A" none).2 = none ∧
    (invoke ["lock", "k", "channel2"] "C"
        (some { lockedToChannel := "", history := [some { id := "A" }] })).2 =
      some { lockedToChannel := "", history := [some { id := "A" }] } :=
  ⟨failure_preserves_state _ _ _
      ⟨.badRequest, "Too many arguments to \x27create\x27"⟩ rfl,
   failure_preserves_state _ _ _
      ⟨.unauthorized, "Not authorized to lock asset k"⟩ rfl⟩

/-- Cell states reachable from the never-written key through invocations of
the chaincode itself (only this system ever writes the key; invocations on
other keys never touch this cell). -/
inductive Reachable : Option Asset → Prop where
  | init : Reachable none
  | step (args : List String) (creator : String) (cell : Option Asset) :
      Reachable cell → Reachable (invoke args creator cell).2

lemma ownsAsset_history_nonempty (ac : AssetContext) (a : Asset)
    (hasset : ac.asset = some a) (howns : ownsAsset ac = true) :
    a.history ≠ [] := by
  intro hnil
  rw [ownsAsset_iff ac a hasset] at howns
  rw [hnil] at howns
  simp at howns

/-- Every invocation either leaves the cell untouched or writes an asset
with non-empty history. -/
lemma execute_state_cases (ac : AssetContext) :
    (execute ac).2 = ac.asset ∨
    ∃ a, (execute ac).2 = some a ∧ a.history ≠ [] := by
  unfold execute
  split
  · -- create
    cases harg : ac.functionArg <;> cases hasset : ac.asset <;>
      simp_all [create]
  · -- lock
    cases harg : ac.functionArg with
    | none => left; simp [lock, harg]
    | some toChannel =>
      cases hasset : ac.asset with
      | none => left; simp [lock, harg, hasset]
      | some a =>
        by_cases hlocked : a.lockedToChannel = ""
        · cases howns : ownsAsset ac with
          | false => left; simp [lock, harg, hasset, hlocked, howns]
          | true =>
            right
            refine ⟨{ a with lockedToChannel := toChannel }, ?_, ?_⟩
            · simp [lock, harg, hasset, hlocked, howns]
            · exact ownsAsset_history_nonempty ac a hasset howns
        · left; simp [lock, harg, hasset, hlocked]
  · -- show
    cases harg : ac.functionArg with
    | none => left; simp [showAsset, harg]
    | some c =>
      cases hasset : ac.asset with
      | none =>
        right
        refine ⟨{ lockedToChannel := "",
                  history := [some { id := ac.creator }, some { id := ac.creator }] },
          ?_, ?_⟩
        · simp [showAsset, harg, hasset]
        · simp
      | some a =>
        by_cases hunlocked : a.lockedToChannel = ""
        · left; simp [showAsset, harg, hasset, hunlocked]
        · by_cases hlen : 1 ≤ a.history.length
          · left; simp [showAsset, harg, hasset, hunlocked, hlen]
          · right
            refine ⟨{ lockedToChannel := "",
                      history := [some { id := ac.creator }, some { id := ac.creator }] },
              ?_, ?_⟩
            · simp [showAsset, harg, hasset, hunlocked, hlen]
            · simp
  · -- transfer
    cases harg : ac.functionArg with
    | none => left; simp [transfer, harg]
    | some toID =>
      cases hasset : ac.asset with
      | none => left; simp [transfer, harg, hasset]
      | some a =>
        by_cases hlocked : a.lockedToChannel = ""
        · cases howns : ownsAsset ac with
          | false => left; simp [transfer, harg, hasset, hlocked, howns]
          | true =>
            right
            refine ⟨{ a with history := a.history ++ [some { id := toID }] }, ?_, ?_⟩
            · simp [transfer, harg, hasset, hlocked, howns]
            · simp
        · left; simp [transfer, harg, hasset, hlocked]
  · -- query
    exact Or.inl (query_state ac)
  · exact Or.inl rfl

lemma invoke_state_cases (args : List String) (creator : String)
    (cell : Option Asset) :
    (invoke args creator cell).2 = cell ∨
    ∃ a, (invoke args creator cell).2 = some a ∧ a.history ≠ [] := by
  unfold invoke
  cases hp : parseArgs args with
  | error e => simp
  | ok t =>
    obtain ⟨f, k, arg⟩ := t
    exact execute_state_cases ⟨creator, cell, f, k, arg⟩

/-- Invariant of the data model: an asset stored by this system always has
non-empty history. -/
lemma reachable_history_nonempty {cell : Option Asset} (h : Reachable cell) :
    ∀ a, cell = some a → a.history ≠ [] := by
  induction h with
  | init => intro a ha; exact absurd ha (by simp)
  | step args creator cell hre ih =>
    intro a ha
    rcases invoke_state_cases args creator cell with hsame | ⟨b, hb, hbne⟩
    · rw [hsame] at ha
      exact ih a ha
    · rw [hb] at ha
      cases ha
      exact hbne

/-- A locked asset with non-empty history blocks every mutation: each
handler either fails before its write or (query) never writes. -/
lemma execute_locked_frozen (ac : AssetContext) (a : Asset)
    (hasset : ac.asset = some a) (hlock : a.lockedToChannel ≠ "")
    (hne : a.history ≠ []) :
    (execute ac).2 = ac.asset := by
  have hlen : 1 ≤ a.history.length := List.length_pos.mpr hne
  unfold execute
  split
  · cases harg : ac.functionArg <;> simp [create, harg, hasset]
  · cases harg : ac.functionArg <;> simp [lock, harg, hasset, hlock]
  · cases harg : ac.functionArg <;> simp [showAsset, harg, hasset, hlock, hlen]
  · cases harg : ac.functionArg <;> simp [transfer, harg, hasset, hlock]
  · exact query_state ac
  · rfl

lemma invoke_locked_frozen (args : List String) (creator : String)
    (cell : Option Asset) (a : Asset) (hcell : cell = some a)
    (hlock : a.lockedToChannel ≠ "") (hne : a.history ≠ []) :
    (invoke args creator cell).2 = cell := by
  unfold invoke
  cases hp : parseArgs args with
  | error e => rfl
  | ok t =>
    obtain ⟨f, k, arg⟩ := t
    exact execute_locked_frozen ⟨creator, cell, f, k, arg⟩ a hcell hlock hne

/-- Claim C7: once an asset stored at the key is locked (non-empty
`lockedToChannel`), a lock invocation fails Conflict naming the existing
lock target and a transfer invocation fails Conflict, whoever invokes them;
and no invocation whatsoever changes the cell, so nothing ever clears
`lockedToChannel` on this ledger: the asset is permanently frozen here. -/
theorem locked_asset_frozen (cell : Option Asset) (a : Asset)
    (key toChannel toID creator creator2 : String) (args : List String)
    (hre : Reachable cell) (hcell : cell = some a)
    (hlock : a.lockedToChannel ≠ "") :
    (invoke ["lock", key, toChannel] creator cell).1 =
      .error ⟨.conflict,
        "Asset " ++ key ++ " is already locked to " ++ a.lockedToChannel⟩ ∧
    (invoke ["transfer", key, toID] creator cell).1 =
      .error ⟨.conflict,
        "Cannot transfer an asset which has been locked to another channel"⟩ ∧
    (invoke args creator2 cell).2 = cell := by
  have hne : a.history ≠ [] := reachable_history_nonempty hre a hcell
  refine ⟨?_, ?_, invoke_locked_frozen args creator2 cell a hcell hlock hne⟩
  · simp [invoke, parseArgs, execute, lock, hcell, hlock]
  · simp [invoke, parseArgs, execute, transfer, hcell, hlock]

/-- Witness for C7: the cell reached by create (as A) then lock to channel2
(as A) holds a locked asset; a further lock and a transfer (as B) fail
Conflict, and a show invocation (as B) leaves the cell unchanged. -/
theorem locked_asset_frozen_witness :
    (invoke ["lock", "assetA", "channel3"] "B"
        (some { lockedToChannel := "channel2", history := [some { id := "A" }] })).1 =
      .error ⟨.conflict, "Asset assetA is already locked to channel2"⟩ ∧
    (invoke ["transfer", "assetA", "B"] "B"
        (some { lockedToChannel := "channel2", history := [some { id := "A" }] })).1 =
      .error ⟨.conflict,
        "Cannot transfer an asset which has been locked to another channel"⟩ ∧
    (invoke ["show", "assetA", "channel2"] "B"
        (some { lockedToChannel := "channel2", history := [some { id := "A" }] })).2 =
      some { lockedToChannel := "channel2", history := [some { id := "A" }] } := by
  have h1 : Reachable (invoke ["create", "assetA"] "A" none).2 :=
    Reachable.step _ _ _ Reachable.init
  have h2 : Reachable
      (invoke ["lock", "assetA", "channel2"] "A"
        (invoke ["create", "assetA"] "A" none).2).2 :=
    Reachable.step _ _ _ h1
  have h3 : Reachable
      (some { lockedToChannel := "channel2", history := [some { id := "A" }] }) := h2
  exact locked_asset_frozen _
    { lockedToChannel := "channel2", history := [some { id := "A" }] }
    "assetA" "channel3" "B" "B" "B" ["show", "assetA", "channel2"]
    h3 rfl (by decide)

end AssetRegistry
